import Mathlib

/-!
Verification development for a PDF-to-image HTTP service (`app.py`).

The service exposes two conversion endpoints:
 * `POST /pdf-to-images`  (function `pdf_to_images`): validates the payload,
   checks the rasterization engine (poppler), rasterizes, encodes each page
   to PNG tolerating per-page failures, and returns the pages inline.
 * `POST /pdf-to-images-zip` (function `pdf_to_images_zip`): decodes the
   payload and rasterizes without signature/engine checks, packs all pages
   into a zip archive, and returns it.

The embedding below models the request body as an optional string of byte
values (the `pdfBase64` field; `none` means the field was absent), the
external rasterization engine as an oracle in `Env`, and PNG encoding of a
single decoded page as an `Except`-valued field of `PageImage` (the outcome
of `image.save`, which either yields the PNG bytes or raises).  Timing
fields (`processing_time`), log output and the byte-level serialization of
the zip container are outside the modelled behavior; the zip archive is
modelled structurally as its list of entries plus the compression method
constant.
-/

/-- Value of one byte under CPython's `table_a2b_base64`: `A`-`Z` map to
0-25, `a`-`z` to 26-51, `0`-`9` to 52-61, `+` to 62, `/` to 63, everything
else (including bytes above 127) is not in the alphabet. -/
def base64Val (c : Nat) : Option Nat :=
  if 65 ≤ c ∧ c ≤ 90 then some (c - 65)
  else if 97 ≤ c ∧ c ≤ 122 then some (c - 71)
  else if 48 ≤ c ∧ c ≤ 57 then some (c + 4)
  else if c = 43 then some 62
  else if c = 47 then some 63
  else none

/-- A byte is relevant to base64 decoding when it is in the alphabet or is
the padding byte `=` (61); all other bytes are skipped by the non-strict
decoder. -/
def b64Relevant (c : Nat) : Bool :=
  (base64Val c).isSome || c == 61

/-- Result of one iteration of the decode loop: either decoding is
finished with the given output (the `goto done` paths), or it continues
with an updated state. -/
inductive A2bRes where
  | done (out : List Nat)
  | cont (quadPos leftchar pads : Nat) (acc : List Nat)

/-- One iteration of the loop body of CPython's `binascii.a2b_base64` in
non-strict mode (the mode used by `base64.b64decode` with
`validate=False`, which is what `app.py` calls) on byte `c`: a padding
byte `=` seen with `quad_pos ≥ 2` counts pads and finishes decoding once
the quad is completed; a padding byte seen with `quad_pos < 2` is skipped
(the pad counter is not incremented, by short-circuit); a byte outside the
alphabet is skipped; an alphabet byte shifts its 6 bits in, emitting a
byte at quad positions 1, 2 and 3 and resetting the pad counter. -/
def a2bStep (c quadPos leftchar pads : Nat) (acc : List Nat) : A2bRes :=
  if c = 61 then
    if 2 ≤ quadPos then
      if 4 ≤ quadPos + (pads + 1) then A2bRes.done acc.reverse
      else A2bRes.cont quadPos leftchar (pads + 1) acc
    else A2bRes.cont quadPos leftchar pads acc
  else
    match base64Val c with
    | none => A2bRes.cont quadPos leftchar pads acc
    | some v =>
      match quadPos with
      | 0 => A2bRes.cont 1 v 0 acc
      | 1 => A2bRes.cont 2 (v % 16) 0 ((leftchar * 4 + v / 16) :: acc)
      | 2 => A2bRes.cont 3 (v % 4) 0 ((leftchar * 16 + v / 4) :: acc)
      | _ => A2bRes.cont 0 0 0 ((leftchar * 64 + v) :: acc)

/-- The decode loop of `binascii.a2b_base64` (non-strict): iterate
`a2bStep` over the input; at end of input a nonzero `quad_pos` is an
error (`Incorrect padding`, or the 1-more-than-a-multiple-of-4 error),
otherwise the accumulated bytes are returned. -/
def a2bGo : List Nat → Nat → Nat → Nat → List Nat → Option (List Nat)
  | [], quadPos, _, _, acc => if quadPos = 0 then some acc.reverse else none
  | c :: rest, quadPos, leftchar, pads, acc =>
    match a2bStep c quadPos leftchar pads acc with
    | A2bRes.done out => some out
    | A2bRes.cont quadPos2 leftchar2 pads2 acc2 => a2bGo rest quadPos2 leftchar2 pads2 acc2

/-- CPython `binascii.a2b_base64` (non-strict): decode a byte string,
returning `none` when the call raises `binascii.Error`. -/
def a2b_base64 (s : List Nat) : Option (List Nat) :=
  a2bGo s 0 0 0 []

/-- Python `base64.b64decode` on a `str` argument with default parameters,
as called at `app.py` line 74 / line 217: the string is first encoded as
ASCII (`_bytes_from_decode_data`; a character above 127 raises
`ValueError`), then fed to the non-strict `a2b_base64`.  `none` models any
raised exception. -/
def b64decode (s : List Nat) : Option (List Nat) :=
  if s.all (fun c => c < 128) then a2b_base64 s else none

/-- Character of a 6-bit value in the standard base64 alphabet
(for `base64.b64encode`). -/
def b64char (v : Nat) : Nat :=
  if v < 26 then v + 65
  else if v < 52 then v + 71
  else if v < 62 then v - 4
  else if v = 62 then 43
  else 47

/-- Python `base64.b64encode`: standard alphabet, `=`-padded. -/
def b64encode : List Nat → List Nat
  | [] => []
  | [a] => [b64char (a / 4), b64char (a % 4 * 16), 61, 61]
  | [a, b] => [b64char (a / 4), b64char (a % 4 * 16 + b / 16), b64char (b % 16 * 4), 61]
  | a :: b :: c :: rest =>
    b64char (a / 4) :: b64char (a % 4 * 16 + b / 16) ::
      b64char (b % 16 * 4 + c / 64) :: b64char (c % 64) :: b64encode rest

/-- One decoded page image as returned by `pdf2image.convert_from_bytes`:
its pixel dimensions and the outcome of PNG-encoding it via `image.save`
(`Except.ok png` bytes on success, `Except.error msg` when `save` raises,
with `msg` the exception text `str(e)`). -/
structure PageImage where
  width : Nat
  height : Nat
  encoded : Except String (List Nat)

instance : Inhabited PageImage := ⟨⟨0, 0, Except.error ""⟩⟩

/-- True when PNG encoding of the page succeeds. -/
def encOk (im : PageImage) : Bool :=
  match im.encoded with
  | Except.ok _ => true
  | Except.error _ => false

/-- One element of the `images` array in the `/pdf-to-images` response:
`{'page': i+1, 'image_base64': ..., 'width': ..., 'height': ...}`. -/
structure PageEntry where
  page : Nat
  image_base64 : List Nat
  width : Nat
  height : Nat
deriving DecidableEq, Inhabited

/-- One entry written into the zip archive by `zip_file.writestr`. -/
structure ZipEntry where
  name : String
  data : List Nat
deriving DecidableEq, Inhabited

/-- The zip archive, modelled structurally: the compression method passed
to `zipfile.ZipFile` (`ZIP_DEFLATED = 8`) and the ordered entries. -/
structure ZipArchive where
  method : Nat
  entries : List ZipEntry
deriving DecidableEq

/-- JSON body of a response: an error object `{'error': msg}`, a success
body of `/pdf-to-images` (`total_pages` plus the `images` array), or a
success body of `/pdf-to-images-zip` (`total_pages` plus the archive). -/
inductive ResponseBody where
  | error (msg : String)
  | imagesOk (total_pages : Nat) (images : List PageEntry)
  | zipOk (total_pages : Nat) (archive : ZipArchive)
deriving DecidableEq

/-- An HTTP response: status code and JSON body. -/
structure Response where
  status : Nat
  body : ResponseBody
deriving DecidableEq

/-- The request environment: whether `check_poppler` reports the engine
binary present, and the engine oracle giving the outcome of a rasterization
of given PDF bytes (the ordered decoded pages, or the diagnostic message of
the exception raised by `pdf2image`). -/
structure Env where
  popplerAvailable : Bool
  rasterize : List Nat → Except String (List PageImage)

/-- Python `pdf_bytes.startswith(b'%PDF')` (`app.py` line 85). -/
def startsWithPDF : List Nat → Bool
  | a :: b :: c :: d :: _ => a == 37 && b == 80 && c == 68 && d == 70
  | _ => false

/-- The call `pdf2image.convert_from_bytes(pdf_bytes, ...)`.  When the
poppler binaries are absent the library raises
`PDFInfoNotInstalledError("Unable to get page count. Is poppler installed
and in PATH?")` while probing `pdfinfo`, before any page is produced;
otherwise the engine oracle decides the outcome. -/
def convert_from_bytes (env : Env) (pdf_bytes : List Nat) : Except String (List PageImage) :=
  if env.popplerAvailable then env.rasterize pdf_bytes
  else Except.error "Unable to get page count. Is poppler installed and in PATH?"

/-- The per-page loop of `pdf_to_images` (`app.py` lines 129-167), starting
at 0-based index `i`: for each page, try to PNG-encode it and append
`{'page': i+1, 'image_base64': ..., 'width': ..., 'height': ...}`; on an
exception, `continue` (skip the page). -/
def processImagesFrom (i : Nat) : List PageImage → List PageEntry
  | [] => []
  | im :: rest =>
    match im.encoded with
    | Except.ok png =>
      { page := i + 1, image_base64 := b64encode png,
        width := im.width, height := im.height } :: processImagesFrom (i + 1) rest
    | Except.error _ => processImagesFrom (i + 1) rest

/-- The accumulated `result_images` list of `pdf_to_images`. -/
def processImages (images : List PageImage) : List PageEntry :=
  processImagesFrom 0 images

/-- Entry name `f'page_{i+1}.png'` for 1-based page number `n`. -/
def zipEntryName (n : Nat) : String :=
  "page_" ++ toString n ++ ".png"

/-- The zip-writing loop of `pdf_to_images_zip` (`app.py` lines 235-239),
with `n` the 1-based number of the next page: each page is PNG-encoded and
written as `page_{n}.png`; there is no per-page exception handling, so a
failing `image.save` propagates (`Except.error`). -/
def zipEntriesFrom (n : Nat) : List PageImage → Except String (List ZipEntry)
  | [] => Except.ok []
  | im :: rest =>
    match im.encoded with
    | Except.error e => Except.error e
    | Except.ok png =>
      match zipEntriesFrom (n + 1) rest with
      | Except.error e => Except.error e
      | Except.ok es => Except.ok ({ name := zipEntryName n, data := png } :: es)

/-- Python `len(images) if images else 0` where `images` is an optional
list (`None` and the empty list are falsy). -/
def pyLenIfTruthy : Option (List PageImage) → Nat
  | none => 0
  | some [] => 0
  | some l => l.length

/-- Handler of `POST /pdf-to-images` (`app.py` lines 44-205), translated
branch by branch:  poppler check (500), missing field (400), empty field
(400), base64 decode failure (400, body text
`f'Invalid base64 data: {str(e)}'`, modelled without the exception text),
signature check (400), `convert_from_bytes` failure (500), empty page list
(400), per-page encoding with skip-on-failure, empty `result_images`
(500), success (200). -/
def pdf_to_images (env : Env) (body : Option (List Nat)) : Response :=
  if env.popplerAvailable = false then
    ⟨500, ResponseBody.error "poppler-utils not installed on server"⟩
  else
    match body with
    | none => ⟨400, ResponseBody.error "No pdfBase64 data provided"⟩
    | some pdf_base64 =>
      if pdf_base64 = [] then ⟨400, ResponseBody.error "Empty pdfBase64 data"⟩
      else
        match b64decode pdf_base64 with
        | none => ⟨400, ResponseBody.error "Invalid base64 data"⟩
        | some pdf_bytes =>
          if startsWithPDF pdf_bytes = false then
            ⟨400, ResponseBody.error "Data does not appear to be a valid PDF file"⟩
          else
            match convert_from_bytes env pdf_bytes with
            | Except.error e => ⟨500, ResponseBody.error ("PDF conversion failed: " ++ e)⟩
            | Except.ok images =>
              if images.isEmpty then
                ⟨400, ResponseBody.error "No pages found in PDF or conversion failed"⟩
              else
                let result_images := processImages images
                if result_images = [] then
                  ⟨500, ResponseBody.error "Failed to process any pages from PDF"⟩
                else
                  ⟨200, ResponseBody.imagesOk result_images.length result_images⟩

/-- Handler of `POST /pdf-to-images-zip` (`app.py` lines 207-257),
translated branch by branch.  Everything after the missing-field check
runs inside one `try`, so a raised exception (base64 decode error,
`convert_from_bytes` failure, a page's `image.save` failure) is answered
with status 500 and the exception text; the model uses the exception text
where the source determines it and a fixed marker for the base64 error
text.  Before the response is assembled the source executes
`images = None` (line 242) and then computes
`'total_pages': len(images) if images else 0` (line 251). -/
def pdf_to_images_zip (env : Env) (body : Option (List Nat)) : Response :=
  match body with
  | none => ⟨400, ResponseBody.error "No pdfBase64 data provided"⟩
  | some pdf_base64 =>
    match b64decode pdf_base64 with
    | none => ⟨500, ResponseBody.error "Incorrect padding"⟩
    | some pdf_bytes =>
      match convert_from_bytes env pdf_bytes with
      | Except.error e => ⟨500, ResponseBody.error e⟩
      | Except.ok images =>
        match zipEntriesFrom 1 images with
        | Except.error e => ⟨500, ResponseBody.error e⟩
        | Except.ok entries =>
          let images : Option (List PageImage) := none
          ⟨200, ResponseBody.zipOk (pyLenIfTruthy images) ⟨8, entries⟩⟩

/-! Helper lemmas about the embedded operations. -/

theorem isEmpty_false_of_ne_nil {α : Type} (l : List α) (h : l ≠ []) : l.isEmpty = false := by
  cases l with
  | nil => exact absurd rfl h
  | cons a t => rfl

theorem encOk_of_ok {im : PageImage} {png : List Nat} (h : im.encoded = Except.ok png) :
    encOk im = true := by
  simp [encOk, h]

theorem encOk_of_error {im : PageImage} {e : String} (h : im.encoded = Except.error e) :
    encOk im = false := by
  simp [encOk, h]

/-- When every page encodes, the per-page loop keeps all of them. -/
theorem processImagesFrom_length_all_ok (l : List PageImage) (i : Nat)
    (hall : ∀ im ∈ l, encOk im = true) :
    (processImagesFrom i l).length = l.length := by
  induction l generalizing i with
  | nil => rfl
  | cons im rest ih =>
    cases him : im.encoded with
    | ok png =>
      simp only [processImagesFrom, him, List.length_cons]
      rw [ih (i + 1) (fun a ha => hall a (List.mem_cons_of_mem im ha))]
    | error e =>
      have := hall im (List.mem_cons_self im rest)
      rw [encOk_of_error him] at this
      exact absurd this (by simp)

/-- When every page encodes, the entry at 0-based position `j` of the
loop output carries page number `i + j + 1`. -/
theorem processImagesFrom_getD_page (l : List PageImage) (i j : Nat)
    (hall : ∀ im ∈ l, encOk im = true) (hj : j < l.length) :
    ((processImagesFrom i l).getD j default).page = i + j + 1 := by
  induction l generalizing i j with
  | nil => exact absurd hj (by simp)
  | cons im rest ih =>
    cases him : im.encoded with
    | ok png =>
      simp only [processImagesFrom, him]
      cases j with
      | zero => simp
      | succ j =>
        rw [List.getD_cons_succ]
        have := ih (i + 1) j (fun a ha => hall a (List.mem_cons_of_mem im ha))
          (by simp at hj; omega)
        omega
    | error e =>
      have := hall im (List.mem_cons_self im rest)
      rw [encOk_of_error him] at this
      exact absurd this (by simp)

/-- The per-page loop keeps exactly the pages whose encoding succeeds. -/
theorem processImagesFrom_length (l : List PageImage) (i : Nat) :
    (processImagesFrom i l).length = (l.filter encOk).length := by
  induction l generalizing i with
  | nil => rfl
  | cons im rest ih =>
    cases him : im.encoded with
    | ok png =>
      rw [List.filter_cons_of_pos (encOk_of_ok him)]
      simp only [processImagesFrom, him, List.length_cons, ih (i + 1)]
    | error e =>
      rw [List.filter_cons_of_neg (by simp [encOk_of_error him])]
      simp only [processImagesFrom, him, ih (i + 1)]

/-- Every entry produced by the per-page loop comes from a successfully
encoded page and carries that page's original 1-based number. -/
theorem mem_processImagesFrom (l : List PageImage) (i : Nat) (e : PageEntry)
    (he : e ∈ processImagesFrom i l) :
    ∃ j, j < l.length ∧ encOk (l.getD j default) = true ∧ e.page = i + j + 1 := by
  induction l generalizing i with
  | nil => exact absurd he (by simp [processImagesFrom])
  | cons im rest ih =>
    cases him : im.encoded with
    | ok png =>
      rw [processImagesFrom, him] at he
      rcases List.mem_cons.mp he with h | h
      · exact ⟨0, by simp, by simpa using encOk_of_ok him, by rw [h]⟩
      · rcases ih (i + 1) h with ⟨j, hj, hok, hpage⟩
        exact ⟨j + 1, by simp; omega, by simpa using hok, by omega⟩
    | error e2 =>
      rw [processImagesFrom, him] at he
      rcases ih (i + 1) he with ⟨j, hj, hok, hpage⟩
      exact ⟨j + 1, by simp; omega, by simpa using hok, by omega⟩

/-- Every successfully encoded page yields an entry with its original
1-based number. -/
theorem processImagesFrom_covers (l : List PageImage) (i j : Nat)
    (hj : j < l.length) (hok : encOk (l.getD j default) = true) :
    ∃ e ∈ processImagesFrom i l, e.page = i + j + 1 := by
  induction l generalizing i j with
  | nil => exact absurd hj (by simp)
  | cons im rest ih =>
    cases j with
    | zero =>
      rw [List.getD_cons_zero] at hok
      cases him : im.encoded with
      | error e2 =>
        rw [encOk_of_error him] at hok
        exact absurd hok (by simp)
      | ok png =>
        refine ⟨{ page := i + 1, image_base64 := b64encode png,
                  width := im.width, height := im.height }, ?_, by simp⟩
        rw [processImagesFrom, him]
        exact List.mem_cons_self _ _
    | succ j =>
      rw [List.getD_cons_succ] at hok
      have hj2 : j < rest.length := by simp at hj; omega
      rcases ih (i + 1) j hj2 hok with ⟨e, he, hpage⟩
      cases him : im.encoded with
      | ok png =>
        refine ⟨e, ?_, by omega⟩
        rw [processImagesFrom, him]
        exact List.mem_cons_of_mem _ he
      | error e2 =>
        refine ⟨e, ?_, by omega⟩
        rw [processImagesFrom, him]
        exact he

/-- If at least one page encodes, the per-page loop output is nonempty. -/
theorem processImagesFrom_ne_nil (l : List PageImage) (i : Nat)
    (hex : ∃ im ∈ l, encOk im = true) : processImagesFrom i l ≠ [] := by
  induction l generalizing i with
  | nil => simp at hex
  | cons im rest ih =>
    cases him : im.encoded with
    | ok png => simp [processImagesFrom, him]
    | error e =>
      rw [processImagesFrom, him]
      apply ih (i + 1)
      rcases hex with ⟨a, ha, hok⟩
      rcases List.mem_cons.mp ha with h | h
      · rw [h, encOk_of_error him] at hok
        exact absurd hok (by simp)
      · exact ⟨a, h, hok⟩

/-- If no page encodes, the per-page loop output is empty. -/
theorem processImagesFrom_nil (l : List PageImage) (i : Nat)
    (hall : ∀ im ∈ l, encOk im = false) : processImagesFrom i l = [] := by
  induction l generalizing i with
  | nil => rfl
  | cons im rest ih =>
    cases him : im.encoded with
    | ok png =>
      have := hall im (List.mem_cons_self im rest)
      rw [encOk_of_ok him] at this
      exact absurd this (by simp)
    | error e =>
      rw [processImagesFrom, him]
      exact ih (i + 1) (fun a ha => hall a (List.mem_cons_of_mem im ha))

/-- When every page encodes, the zip loop succeeds and writes one entry
per page, named by its 1-based number. -/
theorem zipEntriesFrom_all_ok (l : List PageImage) (n : Nat)
    (hall : ∀ im ∈ l, encOk im = true) :
    ∃ es, zipEntriesFrom n l = Except.ok es ∧ es.length = l.length ∧
      ∀ j, j < es.length → (es.getD j default).name = zipEntryName (n + j) := by
  induction l generalizing n with
  | nil => exact ⟨[], rfl, rfl, by simp⟩
  | cons im rest ih =>
    cases him : im.encoded with
    | error e =>
      have := hall im (List.mem_cons_self im rest)
      rw [encOk_of_error him] at this
      exact absurd this (by simp)
    | ok png =>
      rcases ih (n + 1) (fun a ha => hall a (List.mem_cons_of_mem im ha)) with
        ⟨es, hes, hlen, hnames⟩
      refine ⟨{ name := zipEntryName n, data := png } :: es, ?_, by simp [hlen], ?_⟩
      · rw [zipEntriesFrom, him, hes]
      · intro j hj
        cases j with
        | zero => simp
        | succ j =>
          rw [List.getD_cons_succ]
          have := hnames j (by simp at hj; omega)
          rw [this]
          congr 1
          omega

/-- A byte outside the alphabet and distinct from the padding byte leaves
the decoder state unchanged. -/
theorem a2bStep_irrelevant (c quadPos leftchar pads : Nat) (acc : List Nat)
    (hrel : b64Relevant c = false) :
    a2bStep c quadPos leftchar pads acc = A2bRes.cont quadPos leftchar pads acc := by
  have h61 : ¬(c = 61) := by
    intro h
    rw [h] at hrel
    simp [b64Relevant] at hrel
  have hval : base64Val c = none := by
    rcases h : base64Val c with _ | v
    · rfl
    · rw [b64Relevant, h] at hrel
      simp at hrel
  simp [a2bStep, h61, hval]

/-- Discarding the bytes the non-strict decoder skips does not change the
decode result. -/
theorem a2bGo_filter (s : List Nat) : ∀ quadPos leftchar pads acc,
    a2bGo s quadPos leftchar pads acc =
      a2bGo (s.filter b64Relevant) quadPos leftchar pads acc := by
  induction s with
  | nil => intro qp lc pads acc; rfl
  | cons c rest ih =>
    intro qp lc pads acc
    by_cases hrel : b64Relevant c = true
    · rw [List.filter_cons_of_pos hrel]
      rw [a2bGo, a2bGo]
      cases h : a2bStep c qp lc pads acc with
      | done out => rfl
      | cont qp2 lc2 pads2 acc2 => exact ih qp2 lc2 pads2 acc2
    · rw [List.filter_cons_of_neg hrel]
      rw [a2bGo, a2bStep_irrelevant c qp lc pads acc (by simpa using hrel)]
      exact ih qp lc pads acc

/-- Discarding non-alphabet ASCII bytes does not change `b64decode`. -/
theorem b64decode_filter (s : List Nat) (h : s.all (fun c => c < 128) = true) :
    b64decode s = b64decode (s.filter b64Relevant) := by
  have hf : (s.filter b64Relevant).all (fun c => c < 128) = true := by
    rw [List.all_eq_true] at h ⊢
    intro c hc
    exact h c (List.mem_of_mem_filter hc)
  rw [b64decode, b64decode, if_pos h, if_pos hf, a2b_base64, a2b_base64]
  exact a2bGo_filter s 0 0 0 []

/-- A non-ASCII character anywhere in the payload makes `b64decode`
raise. -/
theorem b64decode_none_of_high (s : List Nat) (c : Nat) (hc : c ∈ s) (h128 : 128 ≤ c) :
    b64decode s = none := by
  have h : ¬(s.all (fun c => c < 128) = true) := by
    rw [List.all_eq_true]
    intro hall
    have := hall c hc
    simp at this
    omega
  rw [b64decode, if_neg h]

/-! Claim theorems. -/

/-- C1: for every valid PDF input to the convert-to-images operation in
which all pages rasterize and encode successfully, the returned result is
a 200 success whose `total_pages` equals the length of the pages sequence
and whose entry at 0-based position `j` carries page number `j + 1`, so
page numbers are 1-based, gapless and ascending. -/
theorem C1_totalPages_and_numbering (env : Env) (s pdf_bytes : List Nat)
    (imgs : List PageImage)
    (hpop : env.popplerAvailable = true)
    (hs : s ≠ [])
    (hdec : b64decode s = some pdf_bytes)
    (hsig : startsWithPDF pdf_bytes = true)
    (hrast : env.rasterize pdf_bytes = Except.ok imgs)
    (hne : imgs ≠ [])
    (hall : ∀ im ∈ imgs, encOk im = true) :
    ∃ pages, pdf_to_images env (some s) = ⟨200, ResponseBody.imagesOk pages.length pages⟩ ∧
      ∀ j, j < pages.length → (pages.getD j default).page = j + 1 := by
  have hex : ∃ im ∈ imgs, encOk im = true := by
    cases imgs with
    | nil => exact absurd rfl hne
    | cons a l => exact ⟨a, List.mem_cons_self a l, hall a (List.mem_cons_self a l)⟩
  have hres : processImages imgs ≠ [] := processImagesFrom_ne_nil imgs 0 hex
  refine ⟨processImages imgs, ?_, ?_⟩
  · simp [pdf_to_images, convert_from_bytes, hpop, hs, hdec, hsig, hrast,
      isEmpty_false_of_ne_nil imgs hne, hres]
  · intro j hj
    have hlen := processImagesFrom_length_all_ok imgs 0 hall
    have hj2 : j < imgs.length := by
      rw [processImages, hlen] at hj
      exact hj
    have hpage := processImagesFrom_getD_page imgs 0 j hall hj2
    simpa [processImages] using hpage

/-- Witness for C1 at a concrete two-page document in which both pages
encode successfully. -/
theorem C1_totalPages_and_numbering_witness :
    (∀ im ∈ [PageImage.mk 5 6 (Except.ok [9]), PageImage.mk 7 8 (Except.ok [3])],
      encOk im = true) ∧
    b64decode [74, 86, 66, 69, 82, 103, 61, 61] = some [37, 80, 68, 70] ∧
    ∃ pages,
      pdf_to_images ⟨true, fun _ => Except.ok [⟨5, 6, Except.ok [9]⟩, ⟨7, 8, Except.ok [3]⟩]⟩
          (some [74, 86, 66, 69, 82, 103, 61, 61]) =
        ⟨200, ResponseBody.imagesOk pages.length pages⟩ ∧
      ∀ j, j < pages.length → (pages.getD j default).page = j + 1 :=
  ⟨by decide, by decide,
   C1_totalPages_and_numbering
     ⟨true, fun _ => Except.ok [⟨5, 6, Except.ok [9]⟩, ⟨7, 8, Except.ok [3]⟩]⟩
     [74, 86, 66, 69, 82, 103, 61, 61] [37, 80, 68, 70]
     [⟨5, 6, Except.ok [9]⟩, ⟨7, 8, Except.ok [3]⟩]
     rfl (by decide) (by decide) (by decide) rfl (List.cons_ne_nil _ _) (by decide)⟩

/-- C2: the claim says `totalPages` of a successful convert-to-zip
response equals the number of pages packed into the archive.  The source
sets `images = None` (line 242) before computing
`len(images) if images else 0` (line 251), so `total_pages` is always 0:
here a one-page document is packed into a one-entry archive, yet the
response carries `total_pages = 0`, not 1. -/
theorem C2_total_pages_always_zero_bug :
    pdf_to_images_zip ⟨true, fun _ => Except.ok [⟨5, 6, Except.ok [1]⟩]⟩
        (some [74, 86, 66, 69, 82, 103, 61, 61]) =
      ⟨200, ResponseBody.zipOk 0 ⟨8, [⟨"page_1.png", [1]⟩]⟩⟩ := by
  decide

/-- C3 counterexample: the claim says every input whose decoded bytes do
not begin with `%PDF` gets a 400 from each conversion operation with the
engine never invoked.  Here `AAAA` decodes to bytes `[0,0,0]` (not
`%PDF`), yet `/pdf-to-images-zip` answers 200 with an archive containing
the page produced by the rasterization engine: the zip endpoint performs
no signature check and does invoke the engine. -/
theorem C3_counterexample :
    b64decode [65, 65, 65, 65] = some [0, 0, 0] ∧
    startsWithPDF [0, 0, 0] = false ∧
    pdf_to_images_zip ⟨true, fun _ => Except.ok [⟨5, 6, Except.ok [1]⟩]⟩
        (some [65, 65, 65, 65]) =
      ⟨200, ResponseBody.zipOk 0 ⟨8, [⟨"page_1.png", [1]⟩]⟩⟩ := by
  decide

/-- C3 amended: with the engine available, `/pdf-to-images` answers every
payload decoding to non-`%PDF` bytes with the 400 invalid-file error, and
the response is the same for every rasterization oracle (the engine is
never invoked); `/pdf-to-images-zip` performs no signature check: it hands
the decoded bytes to the engine and reports the engine's failure as a
500. -/
theorem C3_amended_signature_check (r : List Nat → Except String (List PageImage))
    (s pdf_bytes : List Nat) (hs : s ≠ [])
    (hdec : b64decode s = some pdf_bytes) (hsig : startsWithPDF pdf_bytes = false) :
    pdf_to_images ⟨true, r⟩ (some s) =
        ⟨400, ResponseBody.error "Data does not appear to be a valid PDF file"⟩ ∧
      ∀ e, r pdf_bytes = Except.error e →
        pdf_to_images_zip ⟨true, r⟩ (some s) = ⟨500, ResponseBody.error e⟩ := by
  constructor
  · simp [pdf_to_images, hs, hdec, hsig]
  · intro e he
    simp [pdf_to_images_zip, hdec, convert_from_bytes, he]

/-- Witness for the amended C3 at the concrete non-PDF payload `AAAA`. -/
theorem C3_amended_signature_check_witness :
    pdf_to_images ⟨true, fun _ => Except.error "Unable to get page count."⟩
        (some [65, 65, 65, 65]) =
      ⟨400, ResponseBody.error "Data does not appear to be a valid PDF file"⟩ ∧
    ∀ e, (fun _ => Except.error "Unable to get page count." :
          List Nat → Except String (List PageImage)) [0, 0, 0] = Except.error e →
      pdf_to_images_zip ⟨true, fun _ => Except.error "Unable to get page count."⟩
          (some [65, 65, 65, 65]) = ⟨500, ResponseBody.error e⟩ :=
  C3_amended_signature_check (fun _ => Except.error "Unable to get page count.")
    [65, 65, 65, 65] [0, 0, 0] (by decide) (by decide) (by decide)

/-- C4 counterexample: the claim says a per-page encoding failure is
caught and skipped in both output modes, the request still returning 200
when at least one page is retained.  In zip mode a synthetic three-page
document whose second page fails encoding is answered 500: the failure
aborts the whole request. -/
theorem C4_counterexample :
    pdf_to_images_zip
        ⟨true, fun _ => Except.ok
          [⟨5, 6, Except.ok [9]⟩, ⟨5, 6, Except.error "broken data stream"⟩,
           ⟨5, 6, Except.ok [3]⟩]⟩
        (some [74, 86, 66, 69, 82, 103, 61, 61]) =
      ⟨500, ResponseBody.error "broken data stream"⟩ := by
  decide

/-- C4 amended: in the inline images mode only, a per-page encoding
failure is caught and skipped: the request returns 200, `total_pages`
counts exactly the pages whose encoding succeeded, every returned entry
comes from a successfully encoded page and keeps its original 1-based
page number, and every successfully encoded page is represented.  (In zip
mode a per-page failure aborts the request with a 500.) -/
theorem C4_amended_per_page_skip (env : Env) (s pdf_bytes : List Nat) (imgs : List PageImage)
    (hpop : env.popplerAvailable = true) (hs : s ≠ [])
    (hdec : b64decode s = some pdf_bytes) (hsig : startsWithPDF pdf_bytes = true)
    (hrast : env.rasterize pdf_bytes = Except.ok imgs)
    (hex : ∃ im ∈ imgs, encOk im = true) :
    pdf_to_images env (some s) =
        ⟨200, ResponseBody.imagesOk (processImages imgs).length (processImages imgs)⟩ ∧
      (processImages imgs).length = (imgs.filter encOk).length ∧
      (∀ e ∈ processImages imgs, ∃ j, j < imgs.length ∧
        encOk (imgs.getD j default) = true ∧ e.page = j + 1) ∧
      (∀ j, j < imgs.length → encOk (imgs.getD j default) = true →
        ∃ e ∈ processImages imgs, e.page = j + 1) := by
  have hne : imgs ≠ [] := by
    rcases hex with ⟨a, ha, _⟩
    intro h
    rw [h] at ha
    simp at ha
  have hres : processImages imgs ≠ [] := processImagesFrom_ne_nil imgs 0 hex
  refine ⟨?_, processImagesFrom_length imgs 0, ?_, ?_⟩
  · simp [pdf_to_images, convert_from_bytes, hpop, hs, hdec, hsig, hrast,
      isEmpty_false_of_ne_nil imgs hne, hres]
  · intro e he
    rcases mem_processImagesFrom imgs 0 e he with ⟨j, hj, hok, hpage⟩
    exact ⟨j, hj, hok, by omega⟩
  · intro j hj hok
    rcases processImagesFrom_covers imgs 0 j hj hok with ⟨e, he, hpage⟩
    exact ⟨e, he, by omega⟩

/-- Witness for the amended C4 at the spec's partial-failure scenario:
three pages, the second fails encoding, pages 1 and 3 are kept with their
original numbers and the request returns 200 with `total_pages = 2`. -/
theorem C4_amended_per_page_skip_witness :
    (pdf_to_images
          ⟨true, fun _ => Except.ok
            [⟨5, 6, Except.ok [9]⟩, ⟨5, 6, Except.error "broken data stream"⟩,
             ⟨5, 6, Except.ok [3]⟩]⟩
          (some [74, 86, 66, 69, 82, 103, 61, 61]) =
        ⟨200, ResponseBody.imagesOk
          (processImages [⟨5, 6, Except.ok [9]⟩, ⟨5, 6, Except.error "broken data stream"⟩,
            ⟨5, 6, Except.ok [3]⟩]).length
          (processImages [⟨5, 6, Except.ok [9]⟩, ⟨5, 6, Except.error "broken data stream"⟩,
            ⟨5, 6, Except.ok [3]⟩])⟩ ∧
      (processImages [⟨5, 6, Except.ok [9]⟩, ⟨5, 6, Except.error "broken data stream"⟩,
          ⟨5, 6, Except.ok [3]⟩]).length =
        (([⟨5, 6, Except.ok [9]⟩, ⟨5, 6, Except.error "broken data stream"⟩,
          ⟨5, 6, Except.ok [3]⟩] : List PageImage).filter encOk).length ∧
      (∀ e ∈ processImages [⟨5, 6, Except.ok [9]⟩, ⟨5, 6, Except.error "broken data stream"⟩,
          ⟨5, 6, Except.ok [3]⟩], ∃ j,
        j < ([⟨5, 6, Except.ok [9]⟩, ⟨5, 6, Except.error "broken data stream"⟩,
          ⟨5, 6, Except.ok [3]⟩] : List PageImage).length ∧
        encOk (([⟨5, 6, Except.ok [9]⟩, ⟨5, 6, Except.error "broken data stream"⟩,
          ⟨5, 6, Except.ok [3]⟩] : List PageImage).getD j default) = true ∧ e.page = j + 1) ∧
      (∀ j, j < ([⟨5, 6, Except.ok [9]⟩, ⟨5, 6, Except.error "broken data stream"⟩,
          ⟨5, 6, Except.ok [3]⟩] : List PageImage).length →
        encOk (([⟨5, 6, Except.ok [9]⟩, ⟨5, 6, Except.error "broken data stream"⟩,
          ⟨5, 6, Except.ok [3]⟩] : List PageImage).getD j default) = true →
        ∃ e ∈ processImages [⟨5, 6, Except.ok [9]⟩, ⟨5, 6, Except.error "broken data stream"⟩,
          ⟨5, 6, Except.ok [3]⟩], e.page = j + 1)) ∧
    processImages [⟨5, 6, Except.ok [9]⟩, ⟨5, 6, Except.error "broken data stream"⟩,
        ⟨5, 6, Except.ok [3]⟩] =
      [⟨1, b64encode [9], 5, 6⟩, ⟨3, b64encode [3], 5, 6⟩] :=
  ⟨C4_amended_per_page_skip
    ⟨true, fun _ => Except.ok
      [⟨5, 6, Except.ok [9]⟩, ⟨5, 6, Except.error "broken data stream"⟩,
       ⟨5, 6, Except.ok [3]⟩]⟩
    [74, 86, 66, 69, 82, 103, 61, 61] [37, 80, 68, 70]
    [⟨5, 6, Except.ok [9]⟩, ⟨5, 6, Except.error "broken data stream"⟩, ⟨5, 6, Except.ok [3]⟩]
    rfl (by decide) (by decide) (by decide) rfl (by decide), by decide⟩

/-- C5 counterexample: the claim says a nominally successful engine call
yielding zero pages makes the request fail with a 500 server error.  The
source (`app.py` lines 116-117) answers 400: here an engine returning an
empty page list on a valid `%PDF` payload yields status 400, a client
error. -/
theorem C5_counterexample :
    pdf_to_images ⟨true, fun _ => Except.ok []⟩ (some [74, 86, 66, 69, 82, 103, 61, 61]) =
      ⟨400, ResponseBody.error "No pages found in PDF or conversion failed"⟩ := by
  decide

/-- C5 amended: when the engine call succeeds with zero pages,
`/pdf-to-images` fails with the 400 client error `No pages found in PDF
or conversion failed` (not a 500), and `/pdf-to-images-zip` does not fail
at all: it returns 200 with an empty archive and `total_pages = 0`. -/
theorem C5_amended_zero_pages (r : List Nat → Except String (List PageImage))
    (s pdf_bytes : List Nat) (hs : s ≠ [])
    (hdec : b64decode s = some pdf_bytes) (hsig : startsWithPDF pdf_bytes = true)
    (hzero : r pdf_bytes = Except.ok []) :
    pdf_to_images ⟨true, r⟩ (some s) =
        ⟨400, ResponseBody.error "No pages found in PDF or conversion failed"⟩ ∧
      pdf_to_images_zip ⟨true, r⟩ (some s) = ⟨200, ResponseBody.zipOk 0 ⟨8, []⟩⟩ := by
  constructor
  · simp [pdf_to_images, convert_from_bytes, hs, hdec, hsig, hzero]
  · simp [pdf_to_images_zip, convert_from_bytes, hdec, hzero, zipEntriesFrom, pyLenIfTruthy]

/-- Witness for the amended C5 at a concrete zero-page environment. -/
theorem C5_amended_zero_pages_witness :
    pdf_to_images ⟨true, fun _ => Except.ok []⟩ (some [74, 86, 66, 69, 82, 103, 61, 61]) =
        ⟨400, ResponseBody.error "No pages found in PDF or conversion failed"⟩ ∧
      pdf_to_images_zip ⟨true, fun _ => Except.ok []⟩ (some [74, 86, 66, 69, 82, 103, 61, 61]) =
        ⟨200, ResponseBody.zipOk 0 ⟨8, []⟩⟩ :=
  C5_amended_zero_pages (fun _ => Except.ok []) [74, 86, 66, 69, 82, 103, 61, 61]
    [37, 80, 68, 70] (by decide) (by decide) (by decide) rfl

/-- C6 counterexample: the claim says an invalid payload is answered 400
regardless of engine availability.  With the engine unavailable, a request
with the `pdfBase64` field missing is answered 500 with the
engine-unavailable message: `check_poppler` runs before any validation
(`app.py` lines 55-63). -/
theorem C6_counterexample :
    pdf_to_images ⟨false, fun _ => Except.ok []⟩ none =
      ⟨500, ResponseBody.error "poppler-utils not installed on server"⟩ := by
  decide

/-- C6 amended: `/pdf-to-images` executes the engine check before
validation: whenever the engine is unavailable, every request body —
including invalid payloads — is answered 500 with the engine-unavailable
message, never with a 400 validation error. -/
theorem C6_amended_engine_check_first (env : Env) (b : Option (List Nat))
    (h : env.popplerAvailable = false) :
    pdf_to_images env b = ⟨500, ResponseBody.error "poppler-utils not installed on server"⟩ := by
  simp [pdf_to_images, h]

/-- Witness for the amended C6 at a concrete invalid payload (empty
`pdfBase64` string) with the engine unavailable. -/
theorem C6_amended_engine_check_first_witness :
    pdf_to_images ⟨false, fun _ => Except.ok []⟩ (some []) =
      ⟨500, ResponseBody.error "poppler-utils not installed on server"⟩ :=
  C6_amended_engine_check_first ⟨false, fun _ => Except.ok []⟩ (some []) rfl

/-- C7: when the engine is reported unavailable, `/pdf-to-images` answers
every body with the 500 engine-unavailable message, and
`/pdf-to-images-zip` answers every decodable body with the 500
poppler-missing diagnostic raised by the conversion library before any
page is rasterized; both responses are independent of the rasterization
oracle, so the engine is never invoked. -/
theorem C7_engine_unavailable (r1 r2 : List Nat → Except String (List PageImage))
    (b : Option (List Nat)) (s pdf_bytes : List Nat)
    (hdec : b64decode s = some pdf_bytes) :
    pdf_to_images ⟨false, r1⟩ b =
        ⟨500, ResponseBody.error "poppler-utils not installed on server"⟩ ∧
      pdf_to_images ⟨false, r1⟩ b = pdf_to_images ⟨false, r2⟩ b ∧
      pdf_to_images_zip ⟨false, r1⟩ (some s) =
        ⟨500, ResponseBody.error "Unable to get page count. Is poppler installed and in PATH?"⟩ ∧
      pdf_to_images_zip ⟨false, r1⟩ (some s) = pdf_to_images_zip ⟨false, r2⟩ (some s) := by
  refine ⟨?_, ?_, ?_, ?_⟩
  · simp [pdf_to_images]
  · simp [pdf_to_images]
  · simp [pdf_to_images_zip, hdec, convert_from_bytes]
  · simp [pdf_to_images_zip, hdec, convert_from_bytes]

/-- Witness for C7 at two concrete distinct oracles and a concrete
payload. -/
theorem C7_engine_unavailable_witness :
    pdf_to_images ⟨false, fun _ => Except.ok [⟨5, 6, Except.ok [1]⟩]⟩
          (some [74, 86, 66, 69, 82, 103, 61, 61]) =
        ⟨500, ResponseBody.error "poppler-utils not installed on server"⟩ ∧
      pdf_to_images ⟨false, fun _ => Except.ok [⟨5, 6, Except.ok [1]⟩]⟩
          (some [74, 86, 66, 69, 82, 103, 61, 61]) =
        pdf_to_images ⟨false, fun _ => Except.error "crash"⟩
          (some [74, 86, 66, 69, 82, 103, 61, 61]) ∧
      pdf_to_images_zip ⟨false, fun _ => Except.ok [⟨5, 6, Except.ok [1]⟩]⟩
          (some [74, 86, 66, 69, 82, 103, 61, 61]) =
        ⟨500, ResponseBody.error "Unable to get page count. Is poppler installed and in PATH?"⟩ ∧
      pdf_to_images_zip ⟨false, fun _ => Except.ok [⟨5, 6, Except.ok [1]⟩]⟩
          (some [74, 86, 66, 69, 82, 103, 61, 61]) =
        pdf_to_images_zip ⟨false, fun _ => Except.error "crash"⟩
          (some [74, 86, 66, 69, 82, 103, 61, 61]) :=
  C7_engine_unavailable (fun _ => Except.ok [⟨5, 6, Except.ok [1]⟩])
    (fun _ => Except.error "crash")
    (some [74, 86, 66, 69, 82, 103, 61, 61])
    [74, 86, 66, 69, 82, 103, 61, 61] [37, 80, 68, 70] (by decide)

/-- C8: if rasterization produced at least one page, then (a) when every
page fails encoding, `/pdf-to-images` fails with the 500 all-pages-failed
error (`app.py` lines 173-174), and (b) when at least one page encodes,
the request returns 200, so a per-page encoding failure is surfaced to
the client only in the all-pages-eliminated case. -/
theorem C8_all_pages_failed (env : Env) (s pdf_bytes : List Nat) (imgs : List PageImage)
    (hpop : env.popplerAvailable = true) (hs : s ≠ [])
    (hdec : b64decode s = some pdf_bytes) (hsig : startsWithPDF pdf_bytes = true)
    (hrast : env.rasterize pdf_bytes = Except.ok imgs) (hne : imgs ≠ []) :
    ((∀ im ∈ imgs, encOk im = false) →
      pdf_to_images env (some s) =
        ⟨500, ResponseBody.error "Failed to process any pages from PDF"⟩) ∧
    ((∃ im ∈ imgs, encOk im = true) → (pdf_to_images env (some s)).status = 200) := by
  constructor
  · intro hall
    have hres : processImages imgs = [] := processImagesFrom_nil imgs 0 hall
    simp [pdf_to_images, convert_from_bytes, hpop, hs, hdec, hsig, hrast,
      isEmpty_false_of_ne_nil imgs hne, hres]
  · intro hex
    have hres : processImages imgs ≠ [] := processImagesFrom_ne_nil imgs 0 hex
    simp [pdf_to_images, convert_from_bytes, hpop, hs, hdec, hsig, hrast,
      isEmpty_false_of_ne_nil imgs hne, hres]

/-- Witness for C8 at a concrete one-page document whose page fails
encoding (and, for the second conjunct, the implication holds vacuously
on that document only when its premise is met, so the witness checks the
500 branch on an all-failing document). -/
theorem C8_all_pages_failed_witness :
    ((∀ im ∈ [PageImage.mk 5 6 (Except.error "broken data stream")], encOk im = false) →
      pdf_to_images ⟨true, fun _ => Except.ok [⟨5, 6, Except.error "broken data stream"⟩]⟩
          (some [74, 86, 66, 69, 82, 103, 61, 61]) =
        ⟨500, ResponseBody.error "Failed to process any pages from PDF"⟩) ∧
    ((∃ im ∈ [PageImage.mk 5 6 (Except.error "broken data stream")], encOk im = true) →
      (pdf_to_images ⟨true, fun _ => Except.ok [⟨5, 6, Except.error "broken data stream"⟩]⟩
          (some [74, 86, 66, 69, 82, 103, 61, 61])).status = 200) :=
  C8_all_pages_failed ⟨true, fun _ => Except.ok [⟨5, 6, Except.error "broken data stream"⟩]⟩
    [74, 86, 66, 69, 82, 103, 61, 61] [37, 80, 68, 70]
    [⟨5, 6, Except.error "broken data stream"⟩]
    rfl (by decide) (by decide) (by decide) rfl (List.cons_ne_nil _ _)

/-- C9: when a convert-to-zip conversion succeeds with every page
encoding, the returned archive uses deflate compression (`ZIP_DEFLATED =
8`) and contains exactly one entry per page, where the entry at 0-based
position `j` is named `page_{j+1}.png`: names run `page_1.png` through
`page_N.png` for the N encoded pages. -/
theorem C9_zip_archive_layout (env : Env) (s pdf_bytes : List Nat) (imgs : List PageImage)
    (hpop : env.popplerAvailable = true)
    (hdec : b64decode s = some pdf_bytes)
    (hrast : env.rasterize pdf_bytes = Except.ok imgs)
    (hall : ∀ im ∈ imgs, encOk im = true) :
    ∃ entries, pdf_to_images_zip env (some s) = ⟨200, ResponseBody.zipOk 0 ⟨8, entries⟩⟩ ∧
      entries.length = imgs.length ∧
      ∀ j, j < entries.length → (entries.getD j default).name = zipEntryName (j + 1) := by
  rcases zipEntriesFrom_all_ok imgs 1 hall with ⟨es, hes, hlen, hnames⟩
  refine ⟨es, ?_, hlen, ?_⟩
  · simp [pdf_to_images_zip, hdec, convert_from_bytes, hpop, hrast, hes, pyLenIfTruthy]
  · intro j hj
    rw [hnames j hj]
    congr 1
    omega

/-- Witness for C9 at a concrete two-page document. -/
theorem C9_zip_archive_layout_witness :
    ∃ entries,
      pdf_to_images_zip ⟨true, fun _ => Except.ok [⟨5, 6, Except.ok [9]⟩, ⟨7, 8, Except.ok [3]⟩]⟩
          (some [74, 86, 66, 69, 82, 103, 61, 61]) =
        ⟨200, ResponseBody.zipOk 0 ⟨8, entries⟩⟩ ∧
      entries.length =
        ([⟨5, 6, Except.ok [9]⟩, ⟨7, 8, Except.ok [3]⟩] : List PageImage).length ∧
      ∀ j, j < entries.length → (entries.getD j default).name = zipEntryName (j + 1) :=
  C9_zip_archive_layout ⟨true, fun _ => Except.ok [⟨5, 6, Except.ok [9]⟩, ⟨7, 8, Except.ok [3]⟩]⟩
    [74, 86, 66, 69, 82, 103, 61, 61] [37, 80, 68, 70]
    [⟨5, 6, Except.ok [9]⟩, ⟨7, 8, Except.ok [3]⟩]
    rfl (by decide) rfl (by decide)

/-- With the engine available and a nonempty `pdfBase64` string,
`/pdf-to-images` answers with the 400 invalid-base64 error exactly when
`base64.b64decode` raises. -/
theorem pdf_to_images_b64_reject_iff (env : Env) (s : List Nat)
    (hpop : env.popplerAvailable = true) (hs : s ≠ []) :
    pdf_to_images env (some s) = ⟨400, ResponseBody.error "Invalid base64 data"⟩ ↔
      b64decode s = none := by
  constructor
  · intro h
    cases hbd : b64decode s with
    | none => rfl
    | some pdf =>
      exfalso
      simp only [pdf_to_images, hpop, hs, hbd] at h
      simp at h
      by_cases hsig : startsWithPDF pdf = false
      · simp [hsig] at h
      · simp only [hsig, if_false] at h
        cases hcv : convert_from_bytes env pdf with
        | error e =>
          rw [hcv] at h
          simp at h
        | ok images =>
          rw [hcv] at h
          by_cases himgs : images.isEmpty
          · simp [himgs] at h
          · simp only [himgs, if_false] at h
            by_cases hres : processImages images = []
            · simp [hres] at h
            · simp [hres] at h
  · intro h
    simp [pdf_to_images, hpop, hs, h]

/-- C10 counterexample: the claim says a payload containing characters
outside the base64 alphabet is never rejected for that reason alone, only
for padding or length errors.  Appending the single non-alphabet
character U+00E9 (233) to the valid payload `JVBERg==` makes `b64decode`
raise (`str.encode('ascii')` fails before decoding) and the request is
answered with the 400 invalid-base64 error, although the base64-relevant
characters are correctly padded. -/
theorem C10_counterexample :
    b64decode [74, 86, 66, 69, 82, 103, 61, 61] = some [37, 80, 68, 70] ∧
    b64decode [74, 86, 66, 69, 82, 103, 61, 61, 233] = none ∧
    pdf_to_images ⟨true, fun _ => Except.ok []⟩
        (some [74, 86, 66, 69, 82, 103, 61, 61, 233]) =
      ⟨400, ResponseBody.error "Invalid base64 data"⟩ := by
  decide

/-- C10 amended: the 400 invalid-base64 rejection occurs exactly when
Python's default (non-validating) `b64decode` raises; for an all-ASCII
payload, characters outside the base64 alphabet are silently discarded
before decoding (removing them does not change the decode result), so
such a payload is rejected only for padding or length errors; a non-ASCII
character anywhere, however, does cause rejection by itself. -/
theorem C10_amended_lenient_base64 (env : Env) (s : List Nat)
    (hpop : env.popplerAvailable = true) (hs : s ≠ []) :
    (pdf_to_images env (some s) = ⟨400, ResponseBody.error "Invalid base64 data"⟩ ↔
      b64decode s = none) ∧
    (s.all (fun c => c < 128) = true → b64decode s = b64decode (s.filter b64Relevant)) ∧
    (∀ c ∈ s, 128 ≤ c → b64decode s = none) :=
  ⟨pdf_to_images_b64_reject_iff env s hpop hs,
   b64decode_filter s,
   fun c hc h128 => b64decode_none_of_high s c hc h128⟩

/-- Witness for the amended C10 at the payload `JV!BERg==`, which contains
the non-alphabet ASCII character `!` and still decodes. -/
theorem C10_amended_lenient_base64_witness :
    (pdf_to_images ⟨true, fun _ => Except.ok []⟩
          (some [74, 86, 33, 66, 69, 82, 103, 61, 61]) =
        ⟨400, ResponseBody.error "Invalid base64 data"⟩ ↔
      b64decode [74, 86, 33, 66, 69, 82, 103, 61, 61] = none) ∧
    ([74, 86, 33, 66, 69, 82, 103, 61, 61].all (fun c => c < 128) = true →
      b64decode [74, 86, 33, 66, 69, 82, 103, 61, 61] =
        b64decode ([74, 86, 33, 66, 69, 82, 103, 61, 61].filter b64Relevant)) ∧
    (∀ c ∈ [74, 86, 33, 66, 69, 82, 103, 61, 61], 128 ≤ c →
      b64decode [74, 86, 33, 66, 69, 82, 103, 61, 61] = none) :=
  C10_amended_lenient_base64 ⟨true, fun _ => Except.ok []⟩
    [74, 86, 33, 66, 69, 82, 103, 61, 61] rfl (by decide)
